import Mathlib

/-!
Verification of the StreamPersonalAssistant pipeline.

Shallow embedding of the repository code:
  * `utils/transcript_fetcher.py` — video-ID resolution, transcript fetch,
    batch fetch;
  * `utils/llm_handler.py` — completion configuration and summarization;
  * `utils/youtube_api.py` — subscriber-update feed;
  * `main.py` — the report-assembler entry flow.

External services (the transcript provider and the completion provider)
are modelled as explicit parameters; everything the repository computes
itself is translated function by function.
-/

namespace StreamPA

/-! ## VideoReference resolver (`extract_video_id`)

The Python function tries, in order, the regular expressions

  pattern 1:  (?:youtube\.com/watch\?v=|youtu\.be/|youtube\.com/embed/|youtube\.com/v/)([^&\n?#]+)
  pattern 2:  youtube\.com/watch\?.*v=([^&\n?#]+)

with `re.search` and returns the first capture group of the first match;
if neither matches it returns the input unchanged when it matches
`re.match(r^[a-zA-Z0-9_-]\x7b11\x7d$, url)`, and `None` otherwise.

We embed `re.search` for these two concrete patterns: a left-to-right scan
over start positions, alternatives tried in order at each position, a
greedy one-or-more capture of characters outside the excluded set, and for
pattern 2 a greedy `.*` (which cannot cross a newline) resolved to the
rightmost viable `v=` occurrence. `$` in `re.match` accepts the end of the
string or a position just before a single trailing newline. -/

/-- Characters excluded from the capture group `[^&\n?#]+`. -/
def capturableChar (c : Char) : Bool :=
  !(c = '&' || c = '\n' || c = '?' || c = '#')

/-- Match a literal pattern fragment at the head of the input and return the
remainder, mirroring how a regex literal consumes characters. -/
def stripPrefixChars : List Char → List Char → Option (List Char)
  | [], s => some s
  | _ :: _, [] => none
  | p :: ps, c :: cs => if c = p then stripPrefixChars ps cs else none

/-- The greedy capture `([^&\n?#]+)` at the current position: the maximal
run of capturable characters, failing when the run is empty. -/
def captureGroup (s : List Char) : Option (List Char) :=
  if (s.takeWhile capturableChar).isEmpty then none
  else some (s.takeWhile capturableChar)

/-- The four literal alternatives of pattern 1, in source order. -/
def pattern1Alternatives : List (List Char) :=
  ["youtube.com/watch?v=".data, "youtu.be/".data,
   "youtube.com/embed/".data, "youtube.com/v/".data]

/-- Try each alternative of pattern 1 at the current position; the first
alternative whose literal matches and whose capture is non-empty wins. -/
def tryPattern1At (s : List Char) : Option (List Char) :=
  pattern1Alternatives.findSome? fun alt =>
    match stripPrefixChars alt s with
    | some rest => captureGroup rest
    | none => none

/-- `re.search` for pattern 1: scan start positions left to right. -/
def searchPattern1 : List Char → Option (List Char)
  | [] => none
  | c :: cs =>
    match tryPattern1At (c :: cs) with
    | some cap => some cap
    | none => searchPattern1 cs

/-- The backtracking of the greedy `.*v=([^&\n?#]+)` tail of pattern 2:
the rightmost position (within the current line) where `v=` is followed by
a non-empty capture. Recursing on the tail first gives later positions
priority, as greedy backtracking does. -/
def findLastVEq : List Char → Option (List Char)
  | [] => none
  | c :: cs =>
    match findLastVEq cs with
    | some cap => some cap
    | none =>
      match c :: cs with
      | 'v' :: '=' :: rest => captureGroup rest
      | _ => none

/-- Pattern 2 at the current position: the literal `youtube.com/watch?`,
then `.*` (confined to the current line) and the rightmost viable `v=`. -/
def tryPattern2At (s : List Char) : Option (List Char) :=
  match stripPrefixChars "youtube.com/watch?".data s with
  | some rest => findLastVEq (rest.takeWhile fun c => !(c = '\n'))
  | none => none

/-- `re.search` for pattern 2: scan start positions left to right. -/
def searchPattern2 : List Char → Option (List Char)
  | [] => none
  | c :: cs =>
    match tryPattern2At (c :: cs) with
    | some cap => some cap
    | none => searchPattern2 cs

/-- One character of the class `[a-zA-Z0-9_-]`. -/
def idChar (c : Char) : Bool :=
  c.isAlpha || c.isDigit || c = '_' || c = '-'

/-- `re.match(r^[a-zA-Z0-9_-]\x7b11\x7d$, s)`: eleven identifier characters
anchored at the start, with `$` accepting either the very end or a position
just before one trailing newline (Python `$` semantics). -/
def matchesIdShape (s : List Char) : Bool :=
  (s.take 11).length = 11 && (s.take 11).all idChar &&
    (s.drop 11 = [] || s.drop 11 = ['\n'])

/-- `extract_video_id` from `utils/transcript_fetcher.py`: the two patterns
in order, then the bare-ID fallback returning the input unchanged. -/
def extract_video_id (url : String) : Option String :=
  match searchPattern1 url.data with
  | some cap => some (String.mk cap)
  | none =>
    match searchPattern2 url.data with
    | some cap => some (String.mk cap)
    | none => if matchesIdShape url.data then some url else none

/-! ## Completion configuration and summarization (`utils/llm_handler.py`) -/

/-- Python `str.strip()` whitespace set (the ASCII part used by CPython). -/
def pyWhitespace (c : Char) : Bool :=
  c = ' ' || c = '\t' || c = '\n' || c = '\r' || c = '\x0b' || c = '\x0c'

/-- Python `s.strip()`: drop leading and trailing whitespace. -/
def pyStrip (s : String) : String :=
  String.mk (((s.data.dropWhile pyWhitespace).reverse.dropWhile pyWhitespace).reverse)

/-- Python `s[:n]`: the first `n` characters. -/
def pyTake (n : Nat) (s : String) : String :=
  String.mk (s.data.take n)

/-- Python `s.startswith(p)`: the first characters of `s` are exactly
`p`. -/
def pyStartswith (s p : String) : Bool :=
  s.data.take p.data.length = p.data

/-- `LLMConfig` from `utils/llm_handler.py`. The constructor reads
environment variables (`LLM_MODEL` defaulting to "gpt-3.5-turbo",
`LLM_API_KEY`, `LLM_BASE_URL`, `LLM_MAX_TOKENS`, `LLM_TEMPERATURE`); we
treat the constructed record as given, since no claim depends on the
environment parsing itself. -/
structure LLMConfig where
  model : String
  api_key : Option String
  base_url : Option String
  max_tokens : Nat
  temperature : Float

/-- `LLMConfig.is_configured`: local `ollama/` models need no key;
otherwise the key must be present and must not start with the
placeholder marker. -/
def LLMConfig.is_configured (c : LLMConfig) : Bool :=
  if pyStartswith c.model "ollama/" then true
  else
    match c.api_key with
    | none => false
    | some k => !(pyStartswith k "YOUR_PLACEHOLDER")

structure TokensUsed where
  prompt_tokens : Nat
  completion_tokens : Nat
  total_tokens : Nat
deriving DecidableEq

/-- The result dictionary of `summarize_text_with_llm`. -/
structure SummaryResult where
  success : Bool
  error : Option String
  summary : Option String
  model_used : Option String
  tokens_used : Option TokensUsed
deriving DecidableEq

structure Message where
  role : String
  content : String

/-- The keyword arguments assembled for `litellm.completion`. -/
structure CompletionRequest where
  model : String
  messages : List Message
  max_tokens : Nat
  temperature : Float
  api_key : Option String
  api_base : Option String

/-- The part of the `litellm.completion` response the code reads:
`response.choices[0].message.content` and the optional usage counts. -/
structure CompletionResponse where
  content : String
  usage : Option TokensUsed

/-- `create_summarization_prompt` from `utils/llm_handler.py`. -/
def create_summarization_prompt (text_content : String) (content_type : String) : String :=
  if content_type = "transcript" then
    "Please provide a clear and concise summary of this YouTube video transcript. \nFocus on the main points, key insights, and actionable information. \n\nStructure your summary as:\n1. **Main Topic**: Brief description of what the video is about\n2. **Key Points**: 3-5 bullet points of the most important information\n3. **Notable Insights**: Any interesting facts, statistics, or unique perspectives\n4. **Conclusion**: Brief wrap-up of the main takeaway\n\nTranscript:\n" ++ text_content ++ "\n\nSummary:"
  else
    "Please provide a clear and concise summary of the following content:\n\n" ++ text_content ++ "\n\nSummary:"

/-- The dynamically-typed second argument of `summarize_text_with_llm`:
the annotation says `Optional[LLMConfig]`, but callers can (and `main.py`
does) pass a plain string. -/
inductive PyConfigArg
  | pynone
  | pycfg (c : LLMConfig)
  | pystr (s : String)

/-- The uncaught exception raised when `.is_configured()` is looked up on
a string argument. -/
def attributeErrorIsConfigured : String :=
  "AttributeError: \x27str\x27 object has no attribute \x27is_configured\x27"

/-- The record returned for empty or all-whitespace input. -/
def noTextResult : SummaryResult :=
  { success := false, error := some "No text provided for summarization",
    summary := none, model_used := none, tokens_used := none }

/-- `summarize_text_with_llm` from `utils/llm_handler.py`. The external
completion provider is the parameter `complete` (its exceptions are the
`Except.error` case, caught by the try block); `envConfig` is the
`LLMConfig()` default built when the argument is `None`. The `Except`
return value distinguishes a normal result from an uncaught exception:
the attribute lookup `llm_config.is_configured` on a string argument
raises before the try block is entered. -/
def summarize_text_with_llm
    (complete : CompletionRequest → Except String CompletionResponse)
    (envConfig : LLMConfig) (text_to_summarize : String)
    (llm_config : PyConfigArg) (content_type : String) :
    Except String SummaryResult :=
  if text_to_summarize = "" || pyStrip text_to_summarize = "" then
    .ok noTextResult
  else
    let resolved : Except String LLMConfig :=
      match llm_config with
      | .pynone => .ok envConfig
      | .pycfg c => .ok c
      | .pystr _ => .error attributeErrorIsConfigured
    match resolved with
    | .error e => .error e
    | .ok cfg =>
      if !cfg.is_configured then
        .ok { success := false,
              error := some "LLM not configured (missing API key or invalid model)",
              summary := some ("[PLACEHOLDER] Summary would be generated for content starting with: \x27"
                ++ pyTake 100 text_to_summarize ++ "...\x27"),
              model_used := some cfg.model, tokens_used := none }
      else
        let prompt := create_summarization_prompt text_to_summarize content_type
        let req : CompletionRequest :=
          { model := cfg.model
            messages := [{ role := "user", content := prompt }]
            max_tokens := cfg.max_tokens
            temperature := cfg.temperature
            api_key :=
              match cfg.api_key with
              | some k => if !(k = "") && !(pyStartswith cfg.model "ollama/") then some k else none
              | none => none
            api_base :=
              match cfg.base_url with
              | some b => if !(b = "") then some b else none
              | none => none }
        match complete req with
        | .ok resp =>
          .ok { success := true, error := none, summary := some (pyStrip resp.content),
                model_used := some cfg.model, tokens_used := resp.usage }
        | .error e =>
          .ok { success := false, error := some e, summary := none,
                model_used := some cfg.model, tokens_used := none }

/-! ## Update feed (`utils/youtube_api.py`) -/

structure UpdateRecord where
  channel_name : String
  update_title : String
  type : String
deriving DecidableEq

/-- `get_subscriber_updates` from `utils/youtube_api.py`: an empty
credential yields an empty list; any other credential (the placeholder
check only logs a warning) yields the fixed two placeholder records. -/
def get_subscriber_updates (api_key : String) (channel_id : Option String) : List UpdateRecord :=
  if api_key = "" then []
  else
    [{ channel_name := "Example Channel 1", update_title := "New Video Uploaded!",
       type := "upload" },
     { channel_name := "Example Channel 2",
       update_title := "Check out our latest community post!", type := "bulletin" }]

/-! ## Report assembler (`main.py`) -/

/-- The line `main.py` renders (and prints) for one update record; the
dictionary lookups with default "N/A" always find the key on the records
the feed produces. -/
def formatUpdateLine (u : UpdateRecord) : String :=
  "- Channel: " ++ u.channel_name ++ ", Title: " ++ u.update_title ++
    " (Type: " ++ u.type ++ ")"

def noUpdatesMessage : String :=
  "No new updates were found from your subscriptions to summarize."

/-- `main` from `main.py`: fetches updates with the placeholder feed
credential, renders the text block, and calls `summarize_text_with_llm`
passing the string `"YOUR_PLACEHOLDER_LLM_API_KEY"` in the position of
the `llm_config` argument (and no `content_type`, so the default
`"transcript"`). On success it would return the printed update lines and
the summary object handed to the final `print`. -/
def main (complete : CompletionRequest → Except String CompletionResponse)
    (envConfig : LLMConfig) : Except String (List String × SummaryResult) :=
  let youtube_api_key := "YOUR_PLACEHOLDER_YOUTUBE_API_KEY"
  let subscriber_updates := get_subscriber_updates youtube_api_key none
  let printed := subscriber_updates.map formatUpdateLine
  let block := String.join (printed.map fun l => l ++ "\n")
  let updates_text_block := if pyStrip block = "" then noUpdatesMessage else block
  match summarize_text_with_llm complete envConfig updates_text_block
      (.pystr "YOUR_PLACEHOLDER_LLM_API_KEY") "transcript" with
  | .error e => .error e
  | .ok summary => .ok (printed, summary)

/-! ## Transcript fetch (`utils/transcript_fetcher.py`)

The external `youtube_transcript_api` provider is modelled by the
parameter `list_transcripts`, returning either the list of available
tracks for a video ID or an error (the exception text, caught by the
outer try block). `find_transcript` and `find_generated_transcript` on
the returned `TranscriptList` scan the requested language codes in order
and pick the first available track with a matching code, raising (here:
`none`) when there is none; `track.fetch()` yields the track entries,
and `TextFormatter.format_transcript` joins the entry texts with
newlines. -/

/-- One `{start, duration, text}` entry of a fetched transcript. The
times are floats in the source; they are only copied, never computed
with. -/
structure TranscriptEntry where
  start : Float
  duration : Float
  text : String

/-- One available transcript track: a language code, the
machine-generated flag, and the entries `fetch()` returns. -/
structure Track where
  language_code : String
  is_generated : Bool
  data : List TranscriptEntry

/-- The result dictionary of `get_video_transcript`; the keys only
present on the success path are `Option`-valued. -/
structure TranscriptResult where
  success : Bool
  error : Option String
  video_id : Option String
  transcript : Option String
  structured_transcript : Option (List TranscriptEntry)
  language : Option String
  length_chars : Option Nat
  length_entries : Option Nat

/-- Models `TranscriptList.find_transcript`: first track matching one of
the requested language codes, scanned in request order. -/
def findTranscriptIn (tracks : List Track) (langs : List String) : Option Track :=
  langs.findSome? fun l => tracks.find? fun t => t.language_code = l

/-- Models `TranscriptList.find_generated_transcript`: as above but
restricted to machine-generated tracks. -/
def findGeneratedIn (tracks : List Track) (langs : List String) : Option Track :=
  langs.findSome? fun l => tracks.find? fun t => t.is_generated && t.language_code = l

/-- Models `TextFormatter.format_transcript`: entry texts joined by
newlines. -/
def format_transcript (entries : List TranscriptEntry) : String :=
  String.intercalate "\n" (entries.map fun e => e.text)

/-- `get_video_transcript` from `utils/transcript_fetcher.py`: resolve
the reference, default the language preferences, then negotiate in
order — each preferred language, the generated-English fallback, any
available track — and build the result record. -/
def get_video_transcript (list_transcripts : String → Except String (List Track))
    (video_url_or_id : String) (languages : Option (List String)) : TranscriptResult :=
  match extract_video_id video_url_or_id with
  | none =>
    { success := false, error := some "Invalid YouTube URL or video ID",
      video_id := none, transcript := none, structured_transcript := none,
      language := none, length_chars := none, length_entries := none }
  | some video_id =>
    let langs := languages.getD ["en", "en-US", "en-GB"]
    match list_transcripts video_id with
    | .error e =>
      { success := false, error := some e, video_id := some video_id,
        transcript := none, structured_transcript := none, language := none,
        length_chars := none, length_entries := none }
    | .ok tracks =>
      let preferred : Option (Track × String) :=
        langs.findSome? fun lang => (findTranscriptIn tracks [lang]).map fun t => (t, lang)
      let chosen : Option (Track × String) :=
        match preferred with
        | some p => some p
        | none =>
          match findGeneratedIn tracks ["en"] with
          | some t => some (t, "en (auto-generated)")
          | none =>
            match tracks with
            | [] => none
            | t :: _ => some (t, t.language_code)
      match chosen with
      | none =>
        { success := false, error := some "No transcripts available for this video",
          video_id := some video_id, transcript := none,
          structured_transcript := none, language := none,
          length_chars := none, length_entries := none }
      | some (t, used_language) =>
        let formatted := format_transcript t.data
        let structured := t.data.map fun e =>
          ({ start := e.start, duration := e.duration, text := e.text } : TranscriptEntry)
        { success := true, error := none, video_id := some video_id,
          transcript := some formatted, structured_transcript := some structured,
          language := some used_language, length_chars := some formatted.length,
          length_entries := some structured.length }

/-- `get_multiple_video_transcripts`: the sequential loop appending one
`get_video_transcript` result per input. -/
def get_multiple_video_transcripts
    (list_transcripts : String → Except String (List Track))
    (video_urls_or_ids : List String) (languages : Option (List String)) :
    List TranscriptResult :=
  video_urls_or_ids.map fun v => get_video_transcript list_transcripts v languages

/-! ## Definitions used to state the claims -/

/-- The canonical-identifier shape of the spec: exactly eleven characters
from the alphanumeric plus dash/underscore alphabet. -/
def canonicalIdShape (s : String) : Bool :=
  s.length = 11 && s.data.all idChar

/-- The configuration predicate exactly as the spec states it: the model
is a local-inference alias, or the key is present, non-empty and not a
placeholder value. -/
def claimConfiguredRHS (c : LLMConfig) : Prop :=
  pyStartswith c.model "ollama/" = true ∨
    ∃ k, c.api_key = some k ∧ ¬ k = "" ∧ pyStartswith k "YOUR_PLACEHOLDER" = false

/-- A concrete configuration: the default non-local model and no key
(not configured). Used in witnesses. -/
def defaultUnconfigured : LLMConfig :=
  { model := "gpt-3.5-turbo", api_key := none, base_url := none,
    max_tokens := 1000, temperature := 0.7 }

/-- A concrete configuration: the default non-local model and a present
but empty key. Used in the C3 counterexample. -/
def emptyKeyConfig : LLMConfig :=
  { model := "gpt-3.5-turbo", api_key := some "", base_url := none,
    max_tokens := 1000, temperature := 0.7 }

/-! ## Theorems -/

theorem pyStrip_eq_empty (s : String) (h : s.data.all pyWhitespace = true) :
    pyStrip s = "" := by
  unfold pyStrip
  have h1 : s.data.dropWhile pyWhitespace = [] := by
    rw [List.dropWhile_eq_nil_iff]
    intro x hx
    exact List.all_eq_true.mp h x hx
  rw [h1]
  rfl

/-- C4: for every completion provider, environment configuration, config
argument (configured or not, even a string) and content type, summarizing
an empty or all-whitespace content string returns success=false, error
"No text provided for summarization" and a null summary — the
empty-content record is produced regardless of the configuration. -/
theorem summarize_empty_content
    (complete : CompletionRequest → Except String CompletionResponse)
    (envConfig : LLMConfig) (text : String) (llm_config : PyConfigArg)
    (content_type : String) (h : text.data.all pyWhitespace = true) :
    summarize_text_with_llm complete envConfig text llm_config content_type =
      Except.ok noTextResult := by
  unfold summarize_text_with_llm
  rw [pyStrip_eq_empty text h]
  simp

theorem summarize_empty_content_witness :
    ("  \t\n".data.all pyWhitespace = true) ∧
      summarize_text_with_llm (fun _ => Except.error "no provider")
        defaultUnconfigured "  \t\n" PyConfigArg.pynone "transcript" =
        Except.ok noTextResult :=
  ⟨by decide, summarize_empty_content _ _ _ _ _ (by decide)⟩

theorem summarize_unconfigured_eq
    (complete : CompletionRequest → Except String CompletionResponse)
    (envConfig : LLMConfig) (text : String) (cfg : LLMConfig)
    (content_type : String)
    (hne : ¬ pyStrip text = "") (hcfg : cfg.is_configured = false) :
    summarize_text_with_llm complete envConfig text (.pycfg cfg) content_type =
      Except.ok
        { success := false,
          error := some "LLM not configured (missing API key or invalid model)",
          summary := some
            ("[PLACEHOLDER] Summary would be generated for content starting with: \x27"
              ++ pyTake 100 text ++ "...\x27"),
          model_used := some cfg.model, tokens_used := none } := by
  have htext : ¬ text = "" := by
    intro he
    apply hne
    rw [he]
    rfl
  unfold summarize_text_with_llm
  simp [htext, hne, hcfg]

/-- C5: for every non-empty, non-whitespace content string and every
config with is_configured false, summarize returns success=false together
with a non-null placeholder summary containing the first 100 characters
of the content. -/
theorem summarize_unconfigured_placeholder
    (complete : CompletionRequest → Except String CompletionResponse)
    (envConfig : LLMConfig) (text : String) (cfg : LLMConfig)
    (content_type : String)
    (hne : ¬ pyStrip text = "") (hcfg : cfg.is_configured = false) :
    ∃ r : SummaryResult,
      summarize_text_with_llm complete envConfig text (.pycfg cfg) content_type =
        Except.ok r ∧
      r.success = false ∧
      ∃ s : String, r.summary = some s ∧
        ∃ pre post : List Char, s.data = pre ++ text.data.take 100 ++ post := by
  refine ⟨_, summarize_unconfigured_eq complete envConfig text cfg content_type hne hcfg,
    rfl, _, rfl, ?_⟩
  refine ⟨"[PLACEHOLDER] Summary would be generated for content starting with: \x27".data,
    "...\x27".data, ?_⟩
  rw [String.data_append, String.data_append]
  rfl

theorem summarize_unconfigured_placeholder_witness :
    (¬ pyStrip "hello world" = "") ∧
      LLMConfig.is_configured defaultUnconfigured = false ∧
      ∃ r : SummaryResult,
        summarize_text_with_llm (fun _ => Except.error "no provider")
          defaultUnconfigured "hello world"
          (.pycfg defaultUnconfigured) "transcript" = Except.ok r ∧
        r.success = false ∧
        ∃ s : String, r.summary = some s ∧
          ∃ pre post : List Char,
            s.data = pre ++ "hello world".data.take 100 ++ post :=
  ⟨by decide, by decide,
    summarize_unconfigured_placeholder _ _ _ _ _ (by decide) (by decide)⟩

/-- C10: every non-empty credential, the recognizable placeholder
included, makes get_subscriber_updates return the same fixed two-element
sequence of placeholder update records. -/
theorem get_subscriber_updates_placeholder_data
    (api_key : String) (channel_id : Option String) (h : ¬ api_key = "") :
    get_subscriber_updates api_key channel_id =
      [{ channel_name := "Example Channel 1",
         update_title := "New Video Uploaded!", type := "upload" },
       { channel_name := "Example Channel 2",
         update_title := "Check out our latest community post!",
         type := "bulletin" }] := by
  unfold get_subscriber_updates
  rw [if_neg h]

theorem get_subscriber_updates_placeholder_data_witness :
    (¬ "YOUR_PLACEHOLDER_YOUTUBE_API_KEY" = "") ∧
      get_subscriber_updates "YOUR_PLACEHOLDER_YOUTUBE_API_KEY" none =
        [{ channel_name := "Example Channel 1",
           update_title := "New Video Uploaded!", type := "upload" },
         { channel_name := "Example Channel 2",
           update_title := "Check out our latest community post!",
           type := "bulletin" }] :=
  ⟨by decide, get_subscriber_updates_placeholder_data _ none (by decide)⟩

/-- C2: contrary to the claim, the entry flow does not complete: for
every completion provider and environment configuration, `main` raises an
uncaught AttributeError, because it passes the string
"YOUR_PLACEHOLDER_LLM_API_KEY" in the position of the `llm_config`
argument and the attribute lookup `.is_configured` fails on a string
before the internal try block is entered; no report line is printed. -/
theorem main_raises_attribute_error
    (complete : CompletionRequest → Except String CompletionResponse)
    (envConfig : LLMConfig) :
    main complete envConfig = Except.error attributeErrorIsConfigured := rfl

/-- C3 counterexample: a present but empty API key. The code treats the
configuration as configured, while the claim requires the key to be
non-empty. -/
theorem is_configured_counterexample :
    LLMConfig.is_configured emptyKeyConfig = true ∧
      ¬ claimConfiguredRHS emptyKeyConfig := by
  constructor
  · decide
  · rintro (hmodel | ⟨k, hk, hne, hpl⟩)
    · exact absurd hmodel (by decide)
    · injection hk with hk2
      exact hne hk2.symm

/-- C3 amended: is_configured is true iff the model has the `ollama/`
prefix, or a key is present (possibly empty) that does not start with
the placeholder marker "YOUR_PLACEHOLDER". -/
theorem is_configured_iff (c : LLMConfig) :
    c.is_configured = true ↔
      (pyStartswith c.model "ollama/" = true ∨
        ∃ k, c.api_key = some k ∧ pyStartswith k "YOUR_PLACEHOLDER" = false) := by
  unfold LLMConfig.is_configured
  by_cases h : pyStartswith c.model "ollama/" = true
  · simp [h]
  · rw [if_neg (by simpa using h)]
    cases hk : c.api_key with
    | none => simp [h, hk]
    | some k => simp [h, hk]

/-- C8: the batch fetch returns one result per input, in input order,
each equal to the single fetch of the corresponding input, independently
of the success or failure of the other elements. -/
theorem get_multiple_video_transcripts_elementwise
    (list_transcripts : String → Except String (List Track))
    (videos : List String) (languages : Option (List String)) :
    (get_multiple_video_transcripts list_transcripts videos languages).length =
        videos.length ∧
      ∀ i : Nat,
        (get_multiple_video_transcripts list_transcripts videos languages)[i]? =
          (videos[i]?).map fun v =>
            get_video_transcript list_transcripts v languages := by
  constructor
  · simp [get_multiple_video_transcripts]
  · intro i
    simp [get_multiple_video_transcripts]

theorem findSome?_eq_none_of {α β : Type} (f : α → Option β) (l : List α)
    (h : ∀ a ∈ l, f a = none) : l.findSome? f = none := by
  induction l with
  | nil => rfl
  | cons a t ih =>
    rw [List.findSome?_cons, h a (List.mem_cons_self a t)]
    exact ih fun x hx => h x (List.mem_cons_of_mem a hx)

/-- C7: with a valid video reference and a provider reporting zero
available transcript tracks, the fetch returns success=false carrying
the non-empty error "No transcripts available for this video" instead of
raising. -/
theorem get_video_transcript_no_tracks (url vid : String)
    (languages : Option (List String)) (h : extract_video_id url = some vid) :
    get_video_transcript (fun _ => Except.ok []) url languages =
      { success := false,
        error := some "No transcripts available for this video",
        video_id := some vid, transcript := none,
        structured_transcript := none, language := none,
        length_chars := none, length_entries := none } := by
  have hfs : ∀ langs : List String,
      langs.findSome?
        (fun lang => (findTranscriptIn ([] : List Track) [lang]).map fun t => (t, lang)) =
        none :=
    fun langs => findSome?_eq_none_of _ _ fun a _ => rfl
  unfold get_video_transcript
  rw [h]
  simp only [hfs]
  rfl

theorem get_video_transcript_no_tracks_witness :
    extract_video_id "dQw4w9WgXcQ" = some "dQw4w9WgXcQ" ∧
      get_video_transcript (fun _ => Except.ok []) "dQw4w9WgXcQ" none =
        { success := false,
          error := some "No transcripts available for this video",
          video_id := some "dQw4w9WgXcQ", transcript := none,
          structured_transcript := none, language := none,
          length_chars := none, length_entries := none } :=
  ⟨by decide, get_video_transcript_no_tracks "dQw4w9WgXcQ" "dQw4w9WgXcQ" none (by decide)⟩

/-- C6: language negotiation scans the preference list in order and the
first match wins: with available tracks es and fr (in that enumeration
order, any generated flags and any data) and preferences [en, es], the
fetch selects the es track — its language tag, its transcript text — and
succeeds. -/
theorem get_video_transcript_preference_order
    (url vid : String) (esGen frGen : Bool)
    (esData frData : List TranscriptEntry)
    (h : extract_video_id url = some vid) :
    (get_video_transcript
        (fun _ => Except.ok
          [{ language_code := "es", is_generated := esGen, data := esData },
           { language_code := "fr", is_generated := frGen, data := frData }])
        url (some ["en", "es"])).language = some "es" ∧
      (get_video_transcript
        (fun _ => Except.ok
          [{ language_code := "es", is_generated := esGen, data := esData },
           { language_code := "fr", is_generated := frGen, data := frData }])
        url (some ["en", "es"])).transcript = some (format_transcript esData) ∧
      (get_video_transcript
        (fun _ => Except.ok
          [{ language_code := "es", is_generated := esGen, data := esData },
           { language_code := "fr", is_generated := frGen, data := frData }])
        url (some ["en", "es"])).success = true := by
  refine ⟨?_, ?_, ?_⟩ <;>
    (unfold get_video_transcript; rw [h]; rfl)

theorem get_video_transcript_preference_order_witness :
    extract_video_id "dQw4w9WgXcQ" = some "dQw4w9WgXcQ" ∧
      (get_video_transcript
        (fun _ => Except.ok
          [{ language_code := "es", is_generated := false, data := [] },
           { language_code := "fr", is_generated := false, data := [] }])
        "dQw4w9WgXcQ" (some ["en", "es"])).language = some "es" ∧
      (get_video_transcript
        (fun _ => Except.ok
          [{ language_code := "es", is_generated := false, data := [] },
           { language_code := "fr", is_generated := false, data := [] }])
        "dQw4w9WgXcQ" (some ["en", "es"])).transcript =
        some (format_transcript []) ∧
      (get_video_transcript
        (fun _ => Except.ok
          [{ language_code := "es", is_generated := false, data := [] },
           { language_code := "fr", is_generated := false, data := [] }])
        "dQw4w9WgXcQ" (some ["en", "es"])).success = true :=
  ⟨by decide, get_video_transcript_preference_order "dQw4w9WgXcQ" "dQw4w9WgXcQ" false false [] [] (by decide)⟩

theorem capturable_of_idChar (c : Char) (h : idChar c = true) :
    capturableChar c = true := by
  have h1 : ¬ c = '&' := fun e => absurd (e ▸ h) (by decide)
  have h2 : ¬ c = '\n' := fun e => absurd (e ▸ h) (by decide)
  have h3 : ¬ c = '?' := fun e => absurd (e ▸ h) (by decide)
  have h4 : ¬ c = '#' := fun e => absurd (e ▸ h) (by decide)
  simp [capturableChar, h1, h2, h3, h4]

theorem takeWhile_capturable_eq_self (l : List Char) (h : l.all idChar = true) :
    l.takeWhile capturableChar = l := by
  induction l with
  | nil => rfl
  | cons c cs ih =>
    rw [List.all_cons, Bool.and_eq_true] at h
    obtain ⟨hc, hcs⟩ := h
    rw [List.takeWhile_cons, capturable_of_idChar c hc]
    simp [ih hcs]

theorem captureGroup_of_idChars (l : List Char) (h : l.all idChar = true)
    (hne : ¬ l = []) : captureGroup l = some l := by
  cases l with
  | nil => exact absurd rfl hne
  | cons c cs =>
    unfold captureGroup
    rw [takeWhile_capturable_eq_self _ h]
    rfl

theorem tryPattern1At_cons_ne_y (c : Char) (cs : List Char) (h : ¬ c = 'y') :
    tryPattern1At (c :: cs) = none := by
  have k1 : stripPrefixChars "youtube.com/watch?v=".data (c :: cs) = none := by
    rw [show "youtube.com/watch?v=".data = 'y' :: "outube.com/watch?v=".data by decide]
    simp [stripPrefixChars, h]
  have k2 : stripPrefixChars "youtu.be/".data (c :: cs) = none := by
    rw [show "youtu.be/".data = 'y' :: "outu.be/".data by decide]
    simp [stripPrefixChars, h]
  have k3 : stripPrefixChars "youtube.com/embed/".data (c :: cs) = none := by
    rw [show "youtube.com/embed/".data = 'y' :: "outube.com/embed/".data by decide]
    simp [stripPrefixChars, h]
  have k4 : stripPrefixChars "youtube.com/v/".data (c :: cs) = none := by
    rw [show "youtube.com/v/".data = 'y' :: "outube.com/v/".data by decide]
    simp [stripPrefixChars, h]
  unfold tryPattern1At pattern1Alternatives
  simp only [List.findSome?_cons, List.findSome?_nil, k1, k2, k3, k4]

theorem searchPattern1_append_no_y (pre s : List Char)
    (hpre : pre.all (fun c => !(c = 'y')) = true) :
    searchPattern1 (pre ++ s) = searchPattern1 s := by
  induction pre with
  | nil => rfl
  | cons c cs ih =>
    rw [List.all_cons, Bool.and_eq_true] at hpre
    obtain ⟨hc, hcs⟩ := hpre
    have hcy : ¬ c = 'y' := by simpa using hc
    rw [List.cons_append]
    simp only [searchPattern1]
    rw [tryPattern1At_cons_ne_y c _ hcy]
    exact ih hcs

theorem searchPattern1_head_some (s cap : List Char) (h : tryPattern1At s = some cap)
    (hne : ¬ s = []) : searchPattern1 s = some cap := by
  cases s with
  | nil => exact absurd rfl hne
  | cons c cs =>
    simp only [searchPattern1]
    rw [h]

theorem stripPrefixChars_self (p s : List Char) :
    stripPrefixChars p (p ++ s) = some s := by
  induction p with
  | nil => rfl
  | cons c cs ih => simp [stripPrefixChars, ih]

theorem tryPattern1At_watch (s cap : List Char) (h : captureGroup s = some cap) :
    tryPattern1At ("youtube.com/watch?v=".data ++ s) = some cap := by
  unfold tryPattern1At pattern1Alternatives
  simp only [List.findSome?_cons, stripPrefixChars_self, h]

theorem tryPattern1At_short (s cap : List Char) (h : captureGroup s = some cap) :
    tryPattern1At ("youtu.be/".data ++ s) = some cap := by
  have k1 : stripPrefixChars "youtube.com/watch?v=".data ("youtu.be/".data ++ s) = none := rfl
  unfold tryPattern1At pattern1Alternatives
  simp only [List.findSome?_cons, k1, stripPrefixChars_self, h]

theorem tryPattern1At_embed (s cap : List Char) (h : captureGroup s = some cap) :
    tryPattern1At ("youtube.com/embed/".data ++ s) = some cap := by
  have k1 : stripPrefixChars "youtube.com/watch?v=".data ("youtube.com/embed/".data ++ s) = none := rfl
  have k2 : stripPrefixChars "youtu.be/".data ("youtube.com/embed/".data ++ s) = none := rfl
  unfold tryPattern1At pattern1Alternatives
  simp only [List.findSome?_cons, k1, k2, stripPrefixChars_self, h]

theorem stripPrefixChars_none_of_forbidden :
    ∀ p s : List Char, (∃ c0 ∈ p, idChar c0 = false) → s.all idChar = true →
      stripPrefixChars p s = none := by
  intro p
  induction p with
  | nil =>
    intro s hex _
    obtain ⟨c0, hc0, _⟩ := hex
    exact absurd hc0 (List.not_mem_nil c0)
  | cons p0 ps ih =>
    intro s hex hs
    obtain ⟨c0, hc0, hforb⟩ := hex
    cases s with
    | nil => rfl
    | cons c cs =>
      rw [List.all_cons, Bool.and_eq_true] at hs
      obtain ⟨hc, hcs⟩ := hs
      by_cases hcp : c = p0
      · subst hcp
        have hc0ps : c0 ∈ ps := by
          cases List.mem_cons.mp hc0 with
          | inl he =>
            rw [he, hc] at hforb
            exact Bool.noConfusion hforb
          | inr hm => exact hm
        simp [stripPrefixChars, ih cs ⟨c0, hc0ps, hforb⟩ hcs]
      · simp [stripPrefixChars, hcp]

theorem tryPattern1At_none_of_idChars (s : List Char) (hs : s.all idChar = true) :
    tryPattern1At s = none := by
  have k1 : stripPrefixChars "youtube.com/watch?v=".data s = none :=
    stripPrefixChars_none_of_forbidden _ _ ⟨'.', by decide, by decide⟩ hs
  have k2 : stripPrefixChars "youtu.be/".data s = none :=
    stripPrefixChars_none_of_forbidden _ _ ⟨'.', by decide, by decide⟩ hs
  have k3 : stripPrefixChars "youtube.com/embed/".data s = none :=
    stripPrefixChars_none_of_forbidden _ _ ⟨'.', by decide, by decide⟩ hs
  have k4 : stripPrefixChars "youtube.com/v/".data s = none :=
    stripPrefixChars_none_of_forbidden _ _ ⟨'.', by decide, by decide⟩ hs
  unfold tryPattern1At pattern1Alternatives
  simp only [List.findSome?_cons, List.findSome?_nil, k1, k2, k3, k4]

theorem searchPattern1_none_of_idChars (s : List Char) (hs : s.all idChar = true) :
    searchPattern1 s = none := by
  induction s with
  | nil => rfl
  | cons c cs ih =>
    have h2 := hs
    rw [List.all_cons, Bool.and_eq_true] at h2
    obtain ⟨hc, hcs⟩ := h2
    simp only [searchPattern1]
    rw [tryPattern1At_none_of_idChars _ hs]
    exact ih hcs

theorem tryPattern2At_none_of_idChars (s : List Char) (hs : s.all idChar = true) :
    tryPattern2At s = none := by
  have k : stripPrefixChars "youtube.com/watch?".data s = none :=
    stripPrefixChars_none_of_forbidden _ _ ⟨'.', by decide, by decide⟩ hs
  unfold tryPattern2At
  rw [k]

theorem searchPattern2_none_of_idChars (s : List Char) (hs : s.all idChar = true) :
    searchPattern2 s = none := by
  induction s with
  | nil => rfl
  | cons c cs ih =>
    have h2 := hs
    rw [List.all_cons, Bool.and_eq_true] at h2
    obtain ⟨hc, hcs⟩ := h2
    simp only [searchPattern2]
    rw [tryPattern2At_none_of_idChars _ hs]
    exact ih hcs

/-- C1 counterexample: `extract_video_id "youtu.be/abc"` returns the
non-null result "abc", which does not have the canonical 11-character
shape — the URL-pattern captures accept any non-empty run of characters
outside the excluded set. -/
theorem extract_video_id_shape_counterexample :
    extract_video_id "youtu.be/abc" = some "abc" ∧
      canonicalIdShape "abc" = false := by
  constructor <;> decide

/-- C1 amended: when neither URL pattern matches, a non-null result is
the input itself and has the canonical 11-character shape, optionally
followed by one trailing newline (accepted by the `$` anchor of the
fallback `re.match`). -/
theorem extract_video_id_fallback_shape (url v : String)
    (h1 : searchPattern1 url.data = none) (h2 : searchPattern2 url.data = none)
    (h : extract_video_id url = some v) :
    canonicalIdShape v = true ∨
      ∃ core : List Char, v.data = core ++ ['\n'] ∧ core.length = 11 ∧
        core.all idChar = true := by
  unfold extract_video_id at h
  rw [h1, h2] at h
  by_cases hm : matchesIdShape url.data = true
  · rw [if_pos hm] at h
    injection h with hv
    subst hv
    unfold matchesIdShape at hm
    rw [Bool.and_eq_true, Bool.and_eq_true, Bool.or_eq_true] at hm
    obtain ⟨⟨hlen, hall⟩, hdrop⟩ := hm
    rw [decide_eq_true_eq] at hlen
    cases hdrop with
    | inl hnil =>
      left
      rw [decide_eq_true_eq] at hnil
      have hself : url.data = url.data.take 11 := by
        conv_lhs => rw [← List.take_append_drop 11 url.data]
        rw [hnil, List.append_nil]
      unfold canonicalIdShape
      rw [Bool.and_eq_true, decide_eq_true_eq]
      constructor
      · show url.data.length = 11
        rw [hself]
        exact hlen
      · rw [hself]
        exact hall
    | inr hnl =>
      right
      rw [decide_eq_true_eq] at hnl
      refine ⟨url.data.take 11, ?_, hlen, hall⟩
      conv_lhs => rw [← List.take_append_drop 11 url.data]
      rw [hnl]
  · rw [if_neg hm] at h
    exact Option.noConfusion h

theorem extract_video_id_fallback_shape_witness :
    searchPattern1 "abcdefgh123".data = none ∧
      searchPattern2 "abcdefgh123".data = none ∧
      extract_video_id "abcdefgh123" = some "abcdefgh123" ∧
      (canonicalIdShape "abcdefgh123" = true ∨
        ∃ core : List Char, "abcdefgh123".data = core ++ ['\n'] ∧
          core.length = 11 ∧ core.all idChar = true) :=
  ⟨by decide, by decide, by decide,
    extract_video_id_fallback_shape "abcdefgh123" "abcdefgh123"
      (by decide) (by decide) (by decide)⟩

/-- C9: the four sample URL shapes — full watch URL, short youtu.be
link, the bare ID, and the embed link — referencing the same canonical
11-character ID all resolve to that identical ID. -/
theorem extract_video_id_four_shapes (id : String)
    (h : canonicalIdShape id = true) :
    extract_video_id ("https://www.youtube.com/watch?v=" ++ id) = some id ∧
      extract_video_id ("https://youtu.be/" ++ id) = some id ∧
      extract_video_id id = some id ∧
      extract_video_id ("https://www.youtube.com/embed/" ++ id) = some id := by
  unfold canonicalIdShape at h
  rw [Bool.and_eq_true, decide_eq_true_eq] at h
  obtain ⟨hlen, hall⟩ := h
  have hlend : id.data.length = 11 := hlen
  have hne : ¬ id.data = [] := by
    intro he
    rw [he] at hlend
    exact Nat.noConfusion hlend
  have hcap : captureGroup id.data = some id.data := captureGroup_of_idChars _ hall hne
  refine ⟨?_, ?_, ?_, ?_⟩
  · have e : ("https://www.youtube.com/watch?v=" ++ id).data =
        "https://www.".data ++ ("youtube.com/watch?v=".data ++ id.data) := by
      rw [String.data_append,
        show "https://www.youtube.com/watch?v=".data =
          "https://www.".data ++ "youtube.com/watch?v=".data by decide,
        List.append_assoc]
    have hs1 : searchPattern1 ("https://www.youtube.com/watch?v=" ++ id).data =
        some id.data := by
      rw [e, searchPattern1_append_no_y _ _ (by decide)]
      refine searchPattern1_head_some _ _ (tryPattern1At_watch _ _ hcap) ?_
      intro hcontra
      rw [List.append_eq_nil] at hcontra
      exact absurd hcontra.1 (by decide)
    unfold extract_video_id
    rw [hs1]
  · have e : ("https://youtu.be/" ++ id).data =
        "https://".data ++ ("youtu.be/".data ++ id.data) := by
      rw [String.data_append,
        show "https://youtu.be/".data = "https://".data ++ "youtu.be/".data by decide,
        List.append_assoc]
    have hs1 : searchPattern1 ("https://youtu.be/" ++ id).data = some id.data := by
      rw [e, searchPattern1_append_no_y _ _ (by decide)]
      refine searchPattern1_head_some _ _ (tryPattern1At_short _ _ hcap) ?_
      intro hcontra
      rw [List.append_eq_nil] at hcontra
      exact absurd hcontra.1 (by decide)
    unfold extract_video_id
    rw [hs1]
  · have hm : matchesIdShape id.data = true := by
      unfold matchesIdShape
      have ht : id.data.take 11 = id.data := by
        rw [← hlend]
        exact List.take_length _
      have hd : id.data.drop 11 = ([] : List Char) := by
        rw [← hlend]
        exact List.drop_length _
      rw [ht, hd, hlend, hall]
      rfl
    unfold extract_video_id
    rw [searchPattern1_none_of_idChars _ hall, searchPattern2_none_of_idChars _ hall,
      if_pos hm]
  · have e : ("https://www.youtube.com/embed/" ++ id).data =
        "https://www.".data ++ ("youtube.com/embed/".data ++ id.data) := by
      rw [String.data_append,
        show "https://www.youtube.com/embed/".data =
          "https://www.".data ++ "youtube.com/embed/".data by decide,
        List.append_assoc]
    have hs1 : searchPattern1 ("https://www.youtube.com/embed/" ++ id).data =
        some id.data := by
      rw [e, searchPattern1_append_no_y _ _ (by decide)]
      refine searchPattern1_head_some _ _ (tryPattern1At_embed _ _ hcap) ?_
      intro hcontra
      rw [List.append_eq_nil] at hcontra
      exact absurd hcontra.1 (by decide)
    unfold extract_video_id
    rw [hs1]

theorem extract_video_id_four_shapes_witness :
    canonicalIdShape "dQw4w9WgXcQ" = true ∧
      extract_video_id ("https://www.youtube.com/watch?v=" ++ "dQw4w9WgXcQ") =
        some "dQw4w9WgXcQ" ∧
      extract_video_id ("https://youtu.be/" ++ "dQw4w9WgXcQ") = some "dQw4w9WgXcQ" ∧
      extract_video_id "dQw4w9WgXcQ" = some "dQw4w9WgXcQ" ∧
      extract_video_id ("https://www.youtube.com/embed/" ++ "dQw4w9WgXcQ") =
        some "dQw4w9WgXcQ" :=
  ⟨by decide, extract_video_id_four_shapes "dQw4w9WgXcQ" (by decide)⟩

end StreamPA
